import Mathlib

/-!
Verification of the ASL glove firmware real-time pipeline.

Shallow embedding of the code in src/ASL_firmware/src/freertos_tasks.cpp and
src/ASL_firmware/src/ml/asl_inference.cpp: the letter-decision state machine
and its commit step (LogicTask), the shake detector, the sensor-window
publication logic (SensorTask), the classifier dispatch (classifyLetter and
ASLInferenceEngine::classify), the speech-request enqueue and the
speech-cache filename derivation (TTSTask).

Integer model: uint32_t millisecond counters are Nat, with the firmware's
unsigned subtractions performed modulo 2^32 (u32sub).  Float sensor and
confidence values are rationals; each threshold the firmware compares
against (0.85f, 3.5f) orders the representable float values identically to
the rational constant used here, so all branch decisions agree.
-/

/-- Unsigned 32-bit subtraction a - b as performed on uint32_t millisecond
counters (result of the C expression modulo 2^32). -/
def u32sub (a b : Nat) : Nat :=
  (a + 4294967296 - b % 4294967296) % 4294967296

/-- Sentinel ASLInferenceEngine::kNeutralToken, the character 0x01. -/
def kNeutralToken : Char := Char.ofNat 1

/-- Sentinel ASLInferenceEngine::kBackspaceToken, the backspace character 0x08. -/
def kBackspaceToken : Char := Char.ofNat 8

/-- Sentinel ASLInferenceEngine::kSpaceToken, the space character. -/
def kSpaceToken : Char := ' '

/-- MIN_CONFIDENCE_THRESHOLD = 0.85f from freertos_tasks.cpp (written via
mkRat so that guards evaluate by kernel reduction). -/
def MIN_CONFIDENCE_THRESHOLD : ℚ := mkRat 17 20

/-- GYRO_SHAKE_THRESH = 3.5f from freertos_tasks.cpp. -/
def GYRO_SHAKE_THRESH : ℚ := mkRat 7 2

/-- SHAKE_BUFFER_SIZE = 25. -/
def SHAKE_BUFFER_SIZE : Nat := 25

/-- SHAKE_COUNT_THRESHOLD = 18. -/
def SHAKE_COUNT_THRESHOLD : Nat := 18

/-- SHAKE_COOLDOWN_MS = 1500. -/
def SHAKE_COOLDOWN_MS : Nat := 1500

/-- LETTER_HOLD_MS = 200. -/
def LETTER_HOLD_MS : Nat := 200

/-- LETTER_COOLDOWN_MS = 200 (local to LogicTask). -/
def LETTER_COOLDOWN_MS : Nat := 200

/-- TTS_COOLDOWN_MS = 1500. -/
def TTS_COOLDOWN_MS : Nat := 1500

/-- SENSOR_WINDOW_SIZE = 25. -/
def SENSOR_WINDOW_SIZE : Nat := 25

/-! ## Shake detector (class ShakeDetector, freertos_tasks.cpp lines 66-105) -/

/-- State of the ShakeDetector class: 25-slot circular magnitude buffer,
write index, fill count, and timestamp of the last trigger. -/
structure ShakeDetector where
  buffer : List ℚ
  index : Nat
  count : Nat
  lastTriggerMs : Nat
deriving DecidableEq

/-- Initial ShakeDetector state (zero-filled buffer, all counters zero). -/
def initShakeDetector : ShakeDetector :=
  { buffer := List.replicate SHAKE_BUFFER_SIZE 0, index := 0, count := 0, lastTriggerMs := 0 }

/-- ShakeDetector::addSample: store the magnitude at the write index, advance
the index modulo the buffer size, and saturate the fill count at 25. -/
def ShakeDetector.addSample (s : ShakeDetector) (magnitude : ℚ) : ShakeDetector :=
  { buffer := s.buffer.set s.index magnitude,
    index := (s.index + 1) % SHAKE_BUFFER_SIZE,
    count := if s.count < SHAKE_BUFFER_SIZE then s.count + 1 else s.count,
    lastTriggerMs := s.lastTriggerMs }

/-- Number of stored magnitudes strictly above GYRO_SHAKE_THRESH (the loop in
ShakeDetector::triggered). -/
def aboveCount (s : ShakeDetector) : Nat :=
  s.buffer.countP fun m => decide (GYRO_SHAKE_THRESH < m)

/-- ShakeDetector::triggered at wall-clock time now: returns the trigger flag
and the updated detector (lastTriggerMs is stamped on trigger). -/
def ShakeDetector.triggered (s : ShakeDetector) (now : Nat) : Bool × ShakeDetector :=
  if s.count < SHAKE_BUFFER_SIZE then (false, s)
  else if SHAKE_COUNT_THRESHOLD ≤ aboveCount s ∧ SHAKE_COOLDOWN_MS < u32sub now s.lastTriggerMs then
    (true, { s with lastTriggerMs := now })
  else (false, s)

/-! ## Letter decision state machine (LogicTask, freertos_tasks.cpp lines 543-577) -/

/-- A LetterDecision record as published by InferenceTask. -/
structure LetterDecision where
  letter : Char
  confidence : ℚ
  timestamp : Nat
  classIndex : Int
deriving DecidableEq

/-- The LetterState enumeration of LogicTask. -/
inductive LetterState where
  | neutral
  | letterHeld
  | waitNeutral
deriving DecidableEq

/-- Local state of the letter machine inside LogicTask: current state, held
letter and hold-start timestamp. -/
structure LetterMachine where
  state : LetterState
  heldLetter : Char
  holdStart : Nat
deriving DecidableEq

/-- A decision is treated as neutral when its letter is the neutral sentinel
or its confidence is below MIN_CONFIDENCE_THRESHOLD (line 547-549). -/
def isNeutralDecision (d : LetterDecision) : Bool :=
  decide (d.letter = kNeutralToken) || decide (d.confidence < MIN_CONFIDENCE_THRESHOLD)

/-- One iteration of the switch over the letter state (lines 551-576),
processing a dequeued decision at wall-clock time now.  The Bool records
whether commitToBuffer was invoked (the Held -> WaitNeutral transition). -/
def stepLetter (m : LetterMachine) (d : LetterDecision) (now : Nat) : LetterMachine × Bool :=
  match m.state with
  | .neutral =>
    if isNeutralDecision d then (m, false)
    else ({ state := .letterHeld, heldLetter := d.letter, holdStart := now }, false)
  | .letterHeld =>
    if d.letter = m.heldLetter then
      if LETTER_HOLD_MS ≤ u32sub now m.holdStart then
        ({ m with state := .waitNeutral }, true)
      else (m, false)
    else if isNeutralDecision d then ({ m with state := .neutral }, false)
    else (m, false)
  | .waitNeutral =>
    if isNeutralDecision d then ({ m with state := .neutral }, false)
    else (m, false)

/-- Run the letter machine over a list of (decision, processing time) pairs,
counting how many commits fire. -/
def runLetter : LetterMachine → List (LetterDecision × Nat) → LetterMachine × Nat
  | m, [] => (m, 0)
  | m, (d, now) :: rest =>
    let r := stepLetter m d now
    let rr := runLetter r.1 rest
    (rr.1, (if r.2 then 1 else 0) + rr.2)

/-! ## Commit step (commitToBuffer lambda, freertos_tasks.cpp lines 425-489) -/

/-- State mutated by commitToBuffer: the output text buffer, the
last-committed letter and the last-commit timestamp. -/
structure CommitState where
  textBuffer : List Char
  lastCommittedLetter : Char
  lastCommitMs : Nat
deriving DecidableEq

/-- Cross-task globals read by commitToBuffer: gLastTTSCompleteTime and
gLastPlayedWord (written only by the speech tasks). -/
structure TTSGlobals where
  lastTTSCompleteTime : Nat
  lastPlayedWord : List Char
deriving DecidableEq

/-- kLabelNames from asl_inference.cpp: the two class labels. -/
def kLabelNames : List (List Char) := ["EAT".data, "HELLO".data]

/-- ASLInferenceEngine::labelForIndex: the label, or the empty string for an
out-of-range index. -/
def labelForIndex (index : Nat) : List Char := kLabelNames.getD index []

/-- The fullLabel pointer computed in commitToBuffer: labelForIndex when
classIndex is non-negative, null (none) otherwise. -/
def fullLabelFor (classIndex : Int) : Option (List Char) :=
  if 0 ≤ classIndex then some (labelForIndex classIndex.toNat) else none

/-- The speech-cooldown suppression test of commitToBuffer (lines 434-438):
a completed playback exists, less than TTS_COOLDOWN_MS has elapsed since it,
and the resolved label equals the word just played. -/
def ttsCooldownBlocks (g : TTSGlobals) (now : Nat) (classIndex : Int) : Bool :=
  decide (0 < g.lastTTSCompleteTime) &&
    decide (u32sub now g.lastTTSCompleteTime < TTS_COOLDOWN_MS) &&
    match fullLabelFor classIndex with
    | some l => decide (l = g.lastPlayedWord)
    | none => false

/-- The commitToBuffer lambda of LogicTask, translated branch for branch:
neutral tokens are ignored; the speech cooldown may suppress; non-backspace
repeats within LETTER_COOLDOWN_MS are debounced; backspace drops the last
buffer character and resets the repeat-suppression letter; a resolved
non-control word label replaces the whole buffer with the word plus a space;
the space sentinel appends a space; any other token appends itself. -/
def commitToBuffer (g : TTSGlobals) (now : Nat) (value : Char) (classIndex : Int)
    (s : CommitState) : CommitState :=
  if value = kNeutralToken then s
  else if ttsCooldownBlocks g now classIndex then s
  else if value ≠ kBackspaceToken ∧ value = s.lastCommittedLetter ∧
      u32sub now s.lastCommitMs < LETTER_COOLDOWN_MS then s
  else if value = kBackspaceToken then
    { textBuffer := s.textBuffer.dropLast,
      lastCommittedLetter := kNeutralToken,
      lastCommitMs := now }
  else
    { textBuffer :=
        match fullLabelFor classIndex with
        | some l =>
          if l ≠ [] ∧ l ≠ "NEUTRAL".data ∧ l ≠ "BACKSPACE".data ∧ l ≠ "SPACE".data then
            l ++ [' ']
          else if value = kSpaceToken then s.textBuffer ++ [' ']
          else s.textBuffer ++ [value]
        | none =>
          if value = kSpaceToken then s.textBuffer ++ [' ']
          else s.textBuffer ++ [value],
      lastCommittedLetter := value,
      lastCommitMs := now }

/-! ## Sensor window publication (SensorTask, freertos_tasks.cpp lines 295-312) -/

/-- Windowing state of SensorTask: the rolling buffer (sample contents
abstracted to Nat identifiers), the write index, and the primed flag that is
set once the buffer has wrapped for the first time. -/
structure WindowState where
  rolling : List Nat
  windowIndex : Nat
  primed : Bool
deriving DecidableEq

/-- Initial windowing state of SensorTask. -/
def initWindowState : WindowState :=
  { rolling := List.replicate SENSOR_WINDOW_SIZE 0, windowIndex := 0, primed := false }

/-- One SensorTask tick restricted to the windowing logic: insert the sample
at the write index, advance the index, set primed on the first wrap, and --
whenever primed -- build the oldest-to-newest snapshot, overwrite-publish it
and notify the inference task (the published snapshot is the some case). -/
def sensorWindowStep (s : WindowState) (sample : Nat) : WindowState × Option (List Nat) :=
  let rolling := s.rolling.set s.windowIndex sample
  let windowIndex := (s.windowIndex + 1) % SENSOR_WINDOW_SIZE
  let primed := s.primed || decide (windowIndex = 0)
  if primed then
    (⟨rolling, windowIndex, primed⟩,
      some ((List.range SENSOR_WINDOW_SIZE).map fun i =>
        rolling.getD ((windowIndex + i) % SENSOR_WINDOW_SIZE) 0))
  else (⟨rolling, windowIndex, primed⟩, none)

/-- Run the windowing logic over a list of samples, counting publications. -/
def runWindow : WindowState → List Nat → WindowState × Nat
  | s, [] => (s, 0)
  | s, x :: rest =>
    let r := sensorWindowStep s x
    let rr := runWindow r.1 rest
    (rr.1, (if r.2.isSome then 1 else 0) + rr.2)

/-! ## Classifier dispatch (classifyLetter, asl_inference.cpp classify) -/

/-- Outcome of ASLInferenceEngine::classify: output parameters plus the
boolean return value. -/
structure ClassifyOutcome where
  letter : Char
  confidence : ℚ
  classIndex : Int
  ok : Bool
deriving DecidableEq

/-- kLabelToChar from asl_inference.cpp. -/
def kLabelToChar : List Char := ['E', 'H']

/-- The argmax loop of classify over the two dequantized output scores,
starting from best_score -1.0 and best_index -1 with strict improvement. -/
def bestOutput (out0 out1 : ℚ) : ℚ × Int :=
  let b0 : ℚ × Int := if (-1 : ℚ) < out0 then (out0, 0) else (-1, -1)
  if b0.1 < out1 then (out1, 1) else b0

/-- ASLInferenceEngine::classify with its fallible collaborators abstracted:
ready_ flag, null-samples check, window length, tensor-pointer validity,
Invoke() success, and the two dequantized output scores. -/
def classifyEmbed (ready samplesNull : Bool) (sampleCount : Nat)
    (tensorsOk invokeOk : Bool) (out0 out1 : ℚ) : ClassifyOutcome :=
  if !ready || samplesNull || decide (sampleCount = 0) || !tensorsOk then
    ⟨kNeutralToken, 0, -1, false⟩
  else if !invokeOk then ⟨kNeutralToken, 0, -1, false⟩
  else if (bestOutput out0 out1).2 < 0 then ⟨kNeutralToken, 0, -1, false⟩
  else
    ⟨kLabelToChar.getD (bestOutput out0 out1).2.toNat kNeutralToken,
      (bestOutput out0 out1).1, (bestOutput out0 out1).2, true⟩

/-- classifyLetter from freertos_tasks.cpp: initialize to the neutral token
with zero confidence and class index -1, return that when the engine is not
ready, otherwise take whatever classify left in its output parameters. -/
def classifyLetterEmbed (ready samplesNull : Bool) (sampleCount : Nat)
    (tensorsOk invokeOk : Bool) (out0 out1 : ℚ) : Char × ℚ × Int :=
  if !ready then (kNeutralToken, 0, -1)
  else
    let r := classifyEmbed ready samplesNull sampleCount tensorsOk invokeOk out0 out1
    (r.letter, r.confidence, r.classIndex)

/-! ## Speech request enqueue and shake dispatch (lines 128-133 and 513-539) -/

/-- Capacity of ttsRequestQueue (xQueueCreate(3, ...)). -/
def TTS_QUEUE_DEPTH : Nat := 3

/-- The snprintf into the 128-byte TTSRequest::text field: the text with one
trailing space appended, truncated to 127 characters. -/
def snprintfText (text : List Char) : List Char := (text ++ [' ']).take 127

/-- enqueueTTSRequest: non-blocking bounded enqueue of the formatted text
onto the depth-3 queue; none when the queue is full.  The null-queue and
null-text guards cannot fire in the traced control flow (the queue is
created at startup and the text comes from String::c_str). -/
def enqueueTTSRequest (q : List (List Char)) (text : List Char) : Option (List (List Char)) :=
  if q.length < TTS_QUEUE_DEPTH then some (q ++ [snprintfText text]) else none

/-- The shake-trigger handling block of LogicTask (lines 513-539), given the
gTTSEnabled and gTTSInProgress flags, the trigger outcome, the text buffer
and the request queue; returns the new buffer and queue. -/
def shakeDispatch (ttsEnabled ttsInProgress shakeFired : Bool)
    (textBuffer : List Char) (q : List (List Char)) : List Char × List (List Char) :=
  if ttsEnabled && shakeFired then
    if 0 < textBuffer.length then
      if !ttsInProgress then
        match enqueueTTSRequest q textBuffer with
        | some q2 => ([], q2)
        | none => (textBuffer, q)
      else (textBuffer, q)
    else (textBuffer, q)
  else (textBuffer, q)

/-! ## Speech-cache filename derivation (TTSTask, freertos_tasks.cpp lines 601-615) -/

/-- The C isspace predicate over the characters String::trim removes. -/
def isSpaceByte (c : Char) : Bool :=
  c == ' ' || c == '\t' || c == '\n' || c == Char.ofNat 11 || c == Char.ofNat 12 || c == '\r'

/-- Arduino String::trim: drop leading and trailing whitespace. -/
def trimText (s : List Char) : List Char :=
  ((s.dropWhile isSpaceByte).reverse.dropWhile isSpaceByte).reverse

/-- The cache filename TTSTask derives from a request: slash, trimmed text,
".mp3", truncated by snprintf to the 31 characters that fit the 32-byte
filename buffer. -/
def ttsFilename (reqText : List Char) : List Char :=
  (('/' :: trimText reqText) ++ ".mp3".data).take 31

/-- Concrete detector state used for boundary analysis: 25 magnitudes of 4.0
fed into a fresh detector. -/
def shakeExampleFull : ShakeDetector :=
  (List.replicate 25 (4 : ℚ)).foldl ShakeDetector.addSample initShakeDetector

/-! ## Theorems -/

/-- Helper: uint32 subtraction of a timestamp from itself is zero. -/
lemma u32sub_self (a : Nat) : u32sub a a = 0 := by
  unfold u32sub
  omega

/-- C3 counterexample: in the Held state a decision whose token equals the
held token but whose confidence is below 0.85 (hence a neutral-counting
decision), arriving 100 ms into the hold, leaves the machine in Held -- it
does not return it to Neutral as the claim states. -/
theorem held_same_token_low_confidence_stays_held :
    stepLetter ⟨.letterHeld, 'H', 1000⟩ ⟨'H', mkRat 1 2, 1100, -1⟩ 1100 =
      (⟨.letterHeld, 'H', 1000⟩, false) ∧
    isNeutralDecision ⟨'H', mkRat 1 2, 1100, -1⟩ = true ∧
    u32sub 1100 1000 < LETTER_HOLD_MS := by
  decide

/-- C3 amended: in the Held state, a neutral-counting decision whose token
differs from the held token, arriving before the 200 ms hold duration has
elapsed, returns the machine to Neutral without committing. -/
theorem held_neutral_differing_token_resets (m : LetterMachine) (d : LetterDecision)
    (now : Nat) (hmode : m.state = .letterHeld) (hneut : isNeutralDecision d = true)
    (hdiff : d.letter ≠ m.heldLetter) (hearly : u32sub now m.holdStart < LETTER_HOLD_MS) :
    stepLetter m d now = ({ m with state := .neutral }, false) := by
  simp [stepLetter, hmode, hdiff, hneut]

/-- C3 witness: a neutral-sentinel decision 100 ms into a hold of H resets
the machine to Neutral without a commit. -/
theorem held_neutral_differing_token_resets_witness :
    stepLetter ⟨.letterHeld, 'H', 1000⟩ ⟨kNeutralToken, 0, 1100, -1⟩ 1100 =
      (⟨.neutral, 'H', 1000⟩, false) :=
  held_neutral_differing_token_resets _ _ _ rfl (by decide) (by decide) (by decide)

/-- C4 counterexample: after a genuine trigger at t = 2000 ms, a check at
t = 3500 ms -- exactly 1500 ms later, with the buffer fully populated and all
25 magnitudes above the threshold -- does not trigger, because the code
requires strictly more than 1500 ms since the previous trigger. -/
theorem shake_exact_cooldown_counterexample :
    (shakeExampleFull.triggered 2000).1 = true ∧
    SHAKE_BUFFER_SIZE ≤ (shakeExampleFull.triggered 2000).2.count ∧
    SHAKE_COUNT_THRESHOLD ≤ aboveCount (shakeExampleFull.triggered 2000).2 ∧
    u32sub 3500 (shakeExampleFull.triggered 2000).2.lastTriggerMs = SHAKE_COOLDOWN_MS ∧
    ((shakeExampleFull.triggered 2000).2.triggered 3500).1 = false := by
  decide

/-- C4 amended: the shake detector triggers if and only if its 25-slot
buffer is fully populated, at least 18 stored magnitudes exceed 3.5, and
strictly more than 1500 ms have elapsed since the previous trigger; a
trigger stamps the trigger time, so an immediately repeated check at the
same instant does not trigger again. -/
theorem shake_trigger_characterization (s : ShakeDetector) (now : Nat) :
    ((s.triggered now).1 = true ↔
      (SHAKE_BUFFER_SIZE ≤ s.count ∧ SHAKE_COUNT_THRESHOLD ≤ aboveCount s ∧
        SHAKE_COOLDOWN_MS < u32sub now s.lastTriggerMs)) ∧
    ((s.triggered now).1 = true → ((s.triggered now).2.triggered now).1 = false) := by
  constructor
  · unfold ShakeDetector.triggered
    split_ifs with h1 h2
    · constructor
      · intro h
        simp at h
      · rintro ⟨hc, -, -⟩
        omega
    · constructor
      · intro _
        exact ⟨by omega, h2.1, h2.2⟩
      · intro _
        rfl
    · constructor
      · intro h
        simp at h
      · rintro ⟨-, ha, hb⟩
        exact absurd ⟨ha, hb⟩ h2
  · intro ht
    unfold ShakeDetector.triggered at ht
    split_ifs at ht with h1 h2
    have hstate : (s.triggered now).2 = { s with lastTriggerMs := now } := by
      unfold ShakeDetector.triggered
      rw [if_neg h1, if_pos h2]
    rw [hstate]
    unfold ShakeDetector.triggered
    dsimp only
    rw [u32sub_self]
    have hc2 : ¬ (SHAKE_COUNT_THRESHOLD ≤ aboveCount { s with lastTriggerMs := now } ∧
        SHAKE_COOLDOWN_MS < 0) := by
      rintro ⟨-, hx⟩
      omega
    rw [if_neg h1, if_neg hc2]

/-- C4 witness: a fully populated above-threshold detector with no prior
trigger does trigger at t = 2000 ms, and a repeated check at the same
instant does not. -/
theorem shake_trigger_characterization_witness :
    (shakeExampleFull.triggered 2000).1 = true ∧
    ((shakeExampleFull.triggered 2000).2.triggered 2000).1 = false := by
  have h := shake_trigger_characterization shakeExampleFull 2000
  have ht : (shakeExampleFull.triggered 2000).1 = true := h.1.mpr (by decide)
  exact ⟨ht, h.2 ht⟩

/-- C5: a backspace commit, whenever the speech-cooldown suppression does not
apply, drops the last character of the text buffer (a no-op on an empty
buffer, since dropLast of the empty list is empty), resets the
last-committed letter to the neutral sentinel, and stamps the commit time;
no hypothesis about the previous commit is needed, so the 200 ms same-token
debounce never suppresses a backspace. -/
theorem backspace_commit_removes_last (g : TTSGlobals) (now : Nat) (classIndex : Int)
    (s : CommitState) (htts : ttsCooldownBlocks g now classIndex = false) :
    commitToBuffer g now kBackspaceToken classIndex s =
      { textBuffer := s.textBuffer.dropLast,
        lastCommittedLetter := kNeutralToken,
        lastCommitMs := now } := by
  have h1 : ¬(kBackspaceToken = kNeutralToken) := by decide
  simp [commitToBuffer, h1, htts]

/-- C5 witness: a backspace commit 100 ms after a previous backspace commit
(inside the debounce window) still removes the last character of AB. -/
theorem backspace_commit_removes_last_witness :
    commitToBuffer ⟨0, []⟩ 1000 kBackspaceToken (-1) ⟨"AB".data, kBackspaceToken, 900⟩ =
      ⟨['A'], kNeutralToken, 1000⟩ :=
  (backspace_commit_removes_last ⟨0, []⟩ 1000 (-1) ⟨"AB".data, kBackspaceToken, 900⟩
    (by decide)).trans (by decide)

/-- C6: a commit of a non-neutral, non-backspace token whose class index
resolves to a non-empty label distinct from NEUTRAL, BACKSPACE and SPACE,
not suppressed by the speech cooldown and not debounced, replaces the whole
text buffer -- whatever it contained -- with that word plus one trailing
space. -/
theorem word_label_commit_replaces (g : TTSGlobals) (now : Nat) (value : Char)
    (classIndex : Int) (s : CommitState) (l : List Char)
    (hvn : value ≠ kNeutralToken) (hvb : value ≠ kBackspaceToken)
    (hl : fullLabelFor classIndex = some l) (hne : l ≠ [])
    (hn1 : l ≠ "NEUTRAL".data) (hn2 : l ≠ "BACKSPACE".data) (hn3 : l ≠ "SPACE".data)
    (htts : ttsCooldownBlocks g now classIndex = false)
    (hdeb : ¬(value = s.lastCommittedLetter ∧ u32sub now s.lastCommitMs < LETTER_COOLDOWN_MS)) :
    commitToBuffer g now value classIndex s = ⟨l ++ [' '], value, now⟩ := by
  simp [commitToBuffer, hvn, hvb, htts, hl, hne, hn1, hn2, hn3, hdeb]

/-- C6 witness: with buffer AB-space and class index 1 resolving to HELLO,
committing H yields exactly the buffer HELLO-space. -/
theorem word_label_commit_replaces_witness :
    commitToBuffer ⟨0, []⟩ 1000 'H' 1 ⟨"AB ".data, kNeutralToken, 0⟩ =
      ⟨"HELLO ".data, 'H', 1000⟩ :=
  (word_label_commit_replaces ⟨0, []⟩ 1000 'H' 1 ⟨"AB ".data, kNeutralToken, 0⟩
    ("HELLO".data) (by decide) (by decide) (by decide) (by decide) (by decide) (by decide)
    (by decide) (by decide) (by decide)).trans (by decide)

/-- C7: when the resolved label equals the last word played by the speech
task and less than 1500 ms have elapsed since the last completed playback,
the commit is suppressed entirely: the commit state (text buffer,
last-committed letter, last-commit timestamp) is returned unchanged. -/
theorem tts_cooldown_suppresses (g : TTSGlobals) (now : Nat) (value : Char)
    (classIndex : Int) (s : CommitState) (l : List Char)
    (hl : fullLabelFor classIndex = some l) (hw : l = g.lastPlayedWord)
    (hpos : 0 < g.lastTTSCompleteTime)
    (hel : u32sub now g.lastTTSCompleteTime < TTS_COOLDOWN_MS) :
    commitToBuffer g now value classIndex s = s := by
  have hb : ttsCooldownBlocks g now classIndex = true := by
    unfold ttsCooldownBlocks
    rw [hl]
    simp [hpos, hel, hw]
  by_cases hv : value = kNeutralToken
  · simp [commitToBuffer, hv]
  · simp [commitToBuffer, hv, hb]

/-- C7 witness: 500 ms after HELLO finished playing, a commit resolving to
HELLO leaves the commit state untouched. -/
theorem tts_cooldown_suppresses_witness :
    commitToBuffer ⟨1000, "HELLO".data⟩ 1500 'H' 1 ⟨"AB".data, 'X', 700⟩ =
      ⟨"AB".data, 'X', 700⟩ :=
  tts_cooldown_suppresses ⟨1000, "HELLO".data⟩ 1500 'H' 1 ⟨"AB".data, 'X', 700⟩
    "HELLO".data (by decide) (by decide) (by decide) (by decide)

/-- C8: on a shake trigger with speech enabled and a non-empty buffer, when
no speech session is in progress the buffer is cleared exactly when the
depth-3 enqueue succeeds (queue shorter than 3); a full queue leaves buffer
and queue unchanged; an in-progress speech session leaves both unchanged
without enqueueing. -/
theorem shake_enqueue_clears_iff (textBuffer : List Char) (q : List (List Char))
    (hne : textBuffer ≠ []) :
    ((shakeDispatch true false true textBuffer q).1 = [] ↔ q.length < TTS_QUEUE_DEPTH) ∧
    (q.length < TTS_QUEUE_DEPTH →
      shakeDispatch true false true textBuffer q = ([], q ++ [snprintfText textBuffer])) ∧
    (TTS_QUEUE_DEPTH ≤ q.length → shakeDispatch true false true textBuffer q = (textBuffer, q)) ∧
    shakeDispatch true true true textBuffer q = (textBuffer, q) := by
  have hlen : 0 < textBuffer.length := List.length_pos.mpr hne
  have hd : shakeDispatch true false true textBuffer q =
      (if q.length < TTS_QUEUE_DEPTH then (([] : List Char), q ++ [snprintfText textBuffer])
       else (textBuffer, q)) := by
    unfold shakeDispatch enqueueTTSRequest
    by_cases hq : q.length < TTS_QUEUE_DEPTH
    · simp [hlen, hq]
    · simp [hlen, hq]
  refine ⟨?_, ?_, ?_, ?_⟩
  · rw [hd]
    by_cases hq : q.length < TTS_QUEUE_DEPTH
    · simp [hq]
    · simp [hq, hne]
  · intro hq
    rw [hd, if_pos hq]
  · intro hq
    rw [hd, if_neg (by omega)]
  · unfold shakeDispatch
    simp [hlen]

/-- C8 witness: with buffer HI, speech enabled and idle, an empty queue
accepts the request (buffer cleared, text enqueued with its trailing space),
a full 3-element queue retains the buffer, and an in-progress session also
retains it. -/
theorem shake_enqueue_clears_iff_witness :
    shakeDispatch true false true ("HI".data) [] = ([], ["HI ".data]) ∧
    shakeDispatch true false true ("HI".data) [[], [], []] = ("HI".data, [[], [], []]) ∧
    shakeDispatch true true true ("HI".data) [] = ("HI".data, []) := by
  refine ⟨((shake_enqueue_clears_iff ("HI".data) [] (by decide)).2.1 (by decide)).trans (by decide),
    (shake_enqueue_clears_iff ("HI".data) [[], [], []] (by decide)).2.2.1 (by decide),
    (shake_enqueue_clears_iff ("HI".data) [] (by decide)).2.2.2⟩

/-- C9: whenever the engine is not ready or the classification call fails
(null samples, empty window, invalid tensors, failed invoke), classifyLetter
yields the neutral token with confidence 0 and class index -1 -- exactly the
LetterDecision that gets published; and a successful classification has a
non-negative class index, so it never yields the neutral token together
with class index -1. -/
theorem classify_failure_neutral :
    (∀ (ready samplesNull : Bool) (sampleCount : Nat) (tensorsOk invokeOk : Bool) (out0 out1 : ℚ),
      ready = false ∨ samplesNull = true ∨ sampleCount = 0 ∨ tensorsOk = false ∨ invokeOk = false →
      classifyLetterEmbed ready samplesNull sampleCount tensorsOk invokeOk out0 out1 =
        (kNeutralToken, 0, -1)) ∧
    (∀ (ready samplesNull : Bool) (sampleCount : Nat) (tensorsOk invokeOk : Bool) (out0 out1 : ℚ),
      (classifyEmbed ready samplesNull sampleCount tensorsOk invokeOk out0 out1).ok = true →
      0 ≤ (classifyEmbed ready samplesNull sampleCount tensorsOk invokeOk out0 out1).classIndex ∧
        ¬((classifyEmbed ready samplesNull sampleCount tensorsOk invokeOk out0 out1).letter =
            kNeutralToken ∧
          (classifyEmbed ready samplesNull sampleCount tensorsOk invokeOk out0 out1).classIndex =
            -1)) := by
  constructor
  · intro ready samplesNull sampleCount tensorsOk invokeOk out0 out1 h
    cases ready with
    | false => simp [classifyLetterEmbed]
    | true =>
      have hfail : classifyEmbed true samplesNull sampleCount tensorsOk invokeOk out0 out1 =
          ⟨kNeutralToken, 0, -1, false⟩ := by
        rcases h with h | h | h | h | h
        · exact absurd h (by simp)
        · subst h
          simp [classifyEmbed]
        · simp [classifyEmbed, h]
        · subst h
          simp [classifyEmbed]
        · subst h
          by_cases hc : (samplesNull || decide (sampleCount = 0) || !tensorsOk) = true
          · simp [classifyEmbed, hc]
          · simp [classifyEmbed, hc]
      simp [classifyLetterEmbed, hfail]
  · intro ready samplesNull sampleCount tensorsOk invokeOk out0 out1 hok
    unfold classifyEmbed at hok ⊢
    split_ifs at hok ⊢ with h1 h2 h3
    refine ⟨not_lt.mp h3, ?_⟩
    rintro ⟨-, hidx⟩
    dsimp only at hidx
    omega

/-- C9 witness: with the engine not ready, classifyLetter returns the
neutral token, zero confidence and class index -1. -/
theorem classify_failure_neutral_witness :
    classifyLetterEmbed false false 25 true true (mkRat 9 10) (mkRat 1 10) =
      (kNeutralToken, 0, -1) :=
  classify_failure_neutral.1 false false 25 true true (mkRat 9 10) (mkRat 1 10) (Or.inl rfl)

/-- Helper: the C isspace predicate holds on the space character. -/
lemma isSpaceByte_space : isSpaceByte ' ' = true := rfl

/-- Helper: appending one space to a text does not change its Arduino trim. -/
lemma trimText_append_space (w : List Char) : trimText (w ++ [' ']) = trimText w := by
  unfold trimText
  rw [List.dropWhile_append]
  by_cases h : (w.dropWhile isSpaceByte).isEmpty = true
  · rw [if_pos h]
    rw [List.isEmpty_iff] at h
    rw [h]
    rfl
  · rw [if_neg h]
    rw [List.reverse_append]
    simp [List.dropWhile_cons, isSpaceByte_space]

/-- C10: for a buffer text with no leading or trailing whitespace (its trim
is itself) that fits the filename buffer, enqueueing (which appends one
space) and then deriving the cache filename yields exactly slash, the text,
and the .mp3 suffix: the appended space never changes the cache key. -/
theorem tts_filename_round_trip (w : List Char) (htrim : trimText w = w)
    (hlen : w.length ≤ 26) :
    ttsFilename (snprintfText w) = '/' :: (w ++ ".mp3".data) := by
  have h1 : snprintfText w = w ++ [' '] := by
    unfold snprintfText
    exact List.take_of_length_le (by simp; omega)
  unfold ttsFilename
  rw [h1, trimText_append_space, htrim]
  rw [List.cons_append]
  exact List.take_of_length_le (by simp; omega)

/-- C10 witness: the buffer text HELLO round-trips to the cache filename
slash-HELLO-dot-mp3. -/
theorem tts_filename_round_trip_witness :
    ttsFilename (snprintfText ("HELLO".data)) = '/' :: ("HELLO".data ++ ".mp3".data) :=
  tts_filename_round_trip ("HELLO".data) (by decide) (by decide)

/-- Helper: a decision carrying a non-neutral letter with confidence at or
above the threshold is not neutral-counting. -/
lemma isNeutralDecision_eq_false (d : LetterDecision) (hc : d.letter ≠ kNeutralToken)
    (hconf : MIN_CONFIDENCE_THRESHOLD ≤ d.confidence) : isNeutralDecision d = false := by
  unfold isNeutralDecision
  simp [hc, not_lt.mpr hconf]

/-- Helper: from WaitNeutral, a run of same-letter decisions at or above the
confidence threshold commits nothing and leaves the machine unchanged. -/
lemma runLetter_waitNeutral (c : Char) (hc : c ≠ kNeutralToken) :
    ∀ (l : List (LetterDecision × Nat)) (m : LetterMachine), m.state = .waitNeutral →
      (∀ p ∈ l, p.1.letter = c ∧ MIN_CONFIDENCE_THRESHOLD ≤ p.1.confidence) →
      runLetter m l = (m, 0) := by
  intro l
  induction l with
  | nil =>
    intro m _ _
    rfl
  | cons p rest ih =>
    intro m hm hl
    obtain ⟨d, t⟩ := p
    obtain ⟨hletter, hconf⟩ := hl (d, t) (List.mem_cons_self _ _)
    have hnd : isNeutralDecision d = false :=
      isNeutralDecision_eq_false d (by rw [hletter]; exact hc) hconf
    have hstep : stepLetter m d t = (m, false) := by
      unfold stepLetter
      rw [hm]
      simp [hnd]
    simp only [runLetter]
    rw [hstep]
    dsimp only
    rw [ih m hm fun q hq => hl q (List.mem_cons_of_mem _ hq)]
    simp

/-- Helper: from Held on letter c, a run of same-letter decisions at or
above the confidence threshold, at least one of which arrives 200 ms or more
after the hold start, commits exactly once and ends in WaitNeutral. -/
lemma runLetter_held (c : Char) (hc : c ≠ kNeutralToken) :
    ∀ (l : List (LetterDecision × Nat)) (m : LetterMachine), m.state = .letterHeld →
      m.heldLetter = c →
      (∀ p ∈ l, p.1.letter = c ∧ MIN_CONFIDENCE_THRESHOLD ≤ p.1.confidence) →
      (∃ p ∈ l, LETTER_HOLD_MS ≤ u32sub p.2 m.holdStart) →
      runLetter m l = ({ m with state := .waitNeutral }, 1) := by
  intro l
  induction l with
  | nil =>
    intro m _ _ _ hex
    exact absurd hex (by simp)
  | cons p rest ih =>
    intro m hm hheld hl hex
    obtain ⟨d, t⟩ := p
    obtain ⟨hletter, hconf⟩ := hl (d, t) (List.mem_cons_self _ _)
    by_cases hdur : LETTER_HOLD_MS ≤ u32sub t m.holdStart
    · have hstep : stepLetter m d t = ({ m with state := .waitNeutral }, true) := by
        unfold stepLetter
        rw [hm]
        dsimp only
        rw [if_pos (hletter.trans hheld.symm), if_pos hdur]
      simp only [runLetter]
      rw [hstep]
      dsimp only
      rw [runLetter_waitNeutral c hc rest { m with state := .waitNeutral } rfl
        fun q hq => hl q (List.mem_cons_of_mem _ hq)]
      simp
    · have hstep : stepLetter m d t = (m, false) := by
        unfold stepLetter
        rw [hm]
        dsimp only
        rw [if_pos (hletter.trans hheld.symm), if_neg hdur]
      have hex2 : ∃ q ∈ rest, LETTER_HOLD_MS ≤ u32sub q.2 m.holdStart := by
        rcases hex with ⟨q, hq, hqd⟩
        rcases List.mem_cons.mp hq with h | h
        · subst h
          exact absurd hqd hdur
        · exact ⟨q, h, hqd⟩
      simp only [runLetter]
      rw [hstep]
      dsimp only
      rw [ih m hm hheld (fun q hq => hl q (List.mem_cons_of_mem _ hq)) hex2]
      simp

/-- C1: for a decision sequence in which one non-neutral letter c repeats
with confidence at or above 0.85 and some repeat arrives at least 200 ms
after the hold started, the machine performs exactly one commit -- on the
Held to WaitNeutral transition -- and ends in WaitNeutral; and, from
WaitNeutral, no decision ever commits, and the machine returns to Neutral
exactly on a neutral-counting decision. -/
theorem letter_hold_commits_exactly_once :
    (∀ (m : LetterMachine) (c : Char) (d0 : LetterDecision) (t0 : Nat)
        (rest : List (LetterDecision × Nat)),
      m.state = .neutral → c ≠ kNeutralToken →
      d0.letter = c → MIN_CONFIDENCE_THRESHOLD ≤ d0.confidence →
      (∀ p ∈ rest, p.1.letter = c ∧ MIN_CONFIDENCE_THRESHOLD ≤ p.1.confidence) →
      (∃ p ∈ rest, LETTER_HOLD_MS ≤ u32sub p.2 t0) →
      runLetter m ((d0, t0) :: rest) = (⟨.waitNeutral, c, t0⟩, 1)) ∧
    (∀ (m : LetterMachine) (d : LetterDecision) (now : Nat), m.state = .waitNeutral →
      (stepLetter m d now).2 = false ∧
        ((stepLetter m d now).1.state = .neutral ↔ isNeutralDecision d = true)) := by
  constructor
  · intro m c d0 t0 rest hm hc hletter hconf hl hex
    have hnd : isNeutralDecision d0 = false :=
      isNeutralDecision_eq_false d0 (by rw [hletter]; exact hc) hconf
    have hstep : stepLetter m d0 t0 = (⟨.letterHeld, d0.letter, t0⟩, false) := by
      unfold stepLetter
      rw [hm]
      simp [hnd]
    simp only [runLetter]
    rw [hstep]
    dsimp only
    rw [runLetter_held c hc rest ⟨.letterHeld, d0.letter, t0⟩ rfl hletter hl hex]
    simp [hletter]
  · intro m d now hm
    unfold stepLetter
    rw [hm]
    by_cases hnd : isNeutralDecision d = true
    · simp [hnd]
    · simp [hnd, hm]

/-- C1 witness: a hold of H at confidence 0.9 starting at t = 100 ms whose
repeat arrives at t = 350 ms commits exactly once and ends in WaitNeutral. -/
theorem letter_hold_commits_exactly_once_witness :
    runLetter ⟨.neutral, kNeutralToken, 0⟩
        [(⟨'H', mkRat 9 10, 0, 1⟩, 100), (⟨'H', mkRat 9 10, 0, 1⟩, 350)] =
      (⟨.waitNeutral, 'H', 100⟩, 1) :=
  letter_hold_commits_exactly_once.1 ⟨.neutral, kNeutralToken, 0⟩ 'H'
    ⟨'H', mkRat 9 10, 0, 1⟩ 100 [(⟨'H', mkRat 9 10, 0, 1⟩, 350)]
    rfl (by decide) rfl (by decide) (by decide) (by decide)

/-- Helper: running the windowing logic over a list extended by one sample
equals running the list and then stepping once. -/
lemma runWindow_append (s : WindowState) (l : List Nat) (x : Nat) :
    runWindow s (l ++ [x]) =
      ((sensorWindowStep (runWindow s l).1 x).1,
        (runWindow s l).2 + (if (sensorWindowStep (runWindow s l).1 x).2.isSome then 1 else 0)) := by
  induction l generalizing s with
  | nil => simp [runWindow]
  | cons y ys ih =>
    simp only [List.cons_append, runWindow, List.append_eq]
    rw [ih]
    dsimp only
    simp [Nat.add_assoc]

/-- Helper: field-level description of one windowing step: the index
advances cyclically, and the primed flag and the publication indicator both
equal the previous primed flag or-ed with the wrap test on the new index. -/
lemma sensorWindowStep_fields (s : WindowState) (x : Nat) :
    (sensorWindowStep s x).1.windowIndex = (s.windowIndex + 1) % SENSOR_WINDOW_SIZE ∧
    (sensorWindowStep s x).1.primed =
      (s.primed || decide ((s.windowIndex + 1) % SENSOR_WINDOW_SIZE = 0)) ∧
    (sensorWindowStep s x).2.isSome =
      (s.primed || decide ((s.windowIndex + 1) % SENSOR_WINDOW_SIZE = 0)) := by
  cases hb : s.primed || decide ((s.windowIndex + 1) % SENSOR_WINDOW_SIZE = 0) with
  | true => simp [sensorWindowStep, hb]
  | false => simp [sensorWindowStep, hb]

/-- C2 counterexample: after 25 samples the rolling buffer has just wrapped
(windowIndex is 0); feeding a 26th sample advances the index to 1 -- the
buffer does not wrap on that tick -- yet a window snapshot is still
published, and over 26 ticks two publications occur rather than the one the
claim predicts. -/
theorem window_published_without_wrap :
    (runWindow initWindowState (List.replicate 25 7)).1.windowIndex = 0 ∧
    (sensorWindowStep (runWindow initWindowState (List.replicate 25 7)).1 7).1.windowIndex = 1 ∧
    (sensorWindowStep (runWindow initWindowState (List.replicate 25 7)).1 7).2.isSome = true ∧
    (runWindow initWindowState (List.replicate 26 7)).2 = 2 := by
  decide

/-- C2 amended: starting from the initial windowing state, a window is
published (and the dispatcher notified) on every tick from the 25th sample
onward -- that is, exactly when the buffer has been primed by its first
wrap -- so after n ticks exactly n - 24 publications have occurred (none
during the first 24), the primed flag holds exactly when n is at least 25,
and the write index equals n modulo 25. -/
theorem window_publish_once_primed (l : List Nat) :
    (runWindow initWindowState l).2 = l.length - 24 ∧
    (runWindow initWindowState l).1.primed = decide (25 ≤ l.length) ∧
    (runWindow initWindowState l).1.windowIndex = l.length % 25 := by
  induction l using List.reverseRecOn with
  | nil => exact ⟨rfl, rfl, rfl⟩
  | append_singleton ys x ih =>
    obtain ⟨hcount, hprimed, hidx⟩ := ih
    obtain ⟨hwi, hpr, hsome⟩ := sensorWindowStep_fields (runWindow initWindowState ys).1 x
    simp only [SENSOR_WINDOW_SIZE] at hwi hpr hsome
    rw [runWindow_append]
    simp only [List.length_append, List.length_cons, List.length_nil]
    refine ⟨?_, ?_, ?_⟩
    · rw [hcount, hsome, hprimed, hidx]
      split_ifs with h
      · simp only [Bool.or_eq_true, decide_eq_true_eq] at h
        omega
      · simp only [Bool.or_eq_true, decide_eq_true_eq, not_or] at h
        omega
    · rw [hpr, hprimed, hidx, ← Bool.decide_or, decide_eq_decide]
      omega
    · rw [hwi, hidx]
      omega
